import Mathlib

/-!
# Agora — verification of the Election Lifecycle & Vote-Casting Engine

Shallow embedding of the vote-casting core of the Agora repository
(Django project, apps `voting`, `core`, `accounts`) and proofs that settle
the frozen claims of the natural-language specification against it.

Conventions used by the embedding:

* Dates are modelled as day numbers (`Nat`) and times of day as minutes
  since local midnight (`Nat`); Python `datetime.date`/`datetime.time`
  comparisons are order-isomorphic to these.
* Database rows become Lean structures; the database is a record of lists
  of rows.  A Django queryset chain `filter(...)` / `.first()` becomes a
  `List.filter` / `find?` over the list ordered by the model's default
  `Meta.ordering`.
* `@transaction.atomic` bodies become functions `State → Outcome × State`
  that return the *unchanged* input state on every error path (rollback),
  mirroring that nothing is persisted when the request fails.
* SHA-256 application is abstracted away: the model stores and compares
  the exact *input strings* handed to `hashlib.sha256` (field selection,
  JSON key order, string rendering are all modelled byte-for-byte).
  Hash equality corresponds to input equality under the standard
  collision-resistance reading; inequality of inputs is what the proofs
  establish.
-/

namespace Agora

/-- Local wall-clock instant: `date` is a day number, `time` is minutes
since local midnight. Mirrors `timezone.localtime(now).date()/.time()`. -/
structure LocalDateTime where
  date : Nat
  time : Nat
deriving DecidableEq, Repr

/-- `Election.ELECTION_STATUS` choices (apps/voting/models.py). -/
inductive ElectionStatus where
  | DRAFT | PENDING | ACTIVE | PAUSED | COMPLETED | ARCHIVED
deriving DecidableEq, Repr

/-- `Election.ELECTION_TYPES` choices (apps/voting/models.py). -/
inductive ElectionType where
  | NATIONAL | COUNTY
deriving DecidableEq, Repr

/-- The fields of `apps.voting.models.Election` that the vote-casting and
lifecycle code reads or writes.  `votingDate = none` models a NULL
`voting_date`; `county = none` models a NULL county. -/
structure Election where
  id : Nat
  electionType : ElectionType
  county : Option String
  votingDate : Option Nat
  votingStartTime : Nat
  votingEndTime : Nat
  status : ElectionStatus
  allowVoting : Bool
  resultsPublished : Bool
  emergencyPause : Bool
  totalVotesCast : Int
  autoOpen : Bool
  autoClose : Bool
  autoPublish : Bool
  createdAt : Nat
deriving DecidableEq, Repr

/-- `Election.is_voting_open` (apps/voting/models.py lines 71–105),
translated branch for branch.  The textually identical copy on
`apps.core.models.ElectionSettings.is_voting_open` (lines 59–93) is not
duplicated here. -/
def Election.isVotingOpen (e : Election) (now : LocalDateTime) : Bool :=
  if ¬ e.allowVoting ∨ e.emergencyPause ∨ e.status ≠ .ACTIVE then
    false
  else
    match e.votingDate with
    | none => e.allowVoting ∧ ¬ e.emergencyPause ∧ e.status = .ACTIVE
    | some d =>
      if now.date ≠ d then
        false
      else if e.votingEndTime ≤ e.votingStartTime then
        -- "If end time is less than start time, it means voting crosses midnight"
        e.votingStartTime ≤ now.time ∨ now.time < e.votingEndTime
      else
        e.votingStartTime ≤ now.time ∧ now.time ≤ e.votingEndTime

/-- `Election.should_be_active` (apps/voting/models.py lines 180–189).
Python's `local_now.date() == self.voting_date` is simply `False` when
`voting_date` is NULL, so no error can arise here. -/
def Election.shouldBeActive (e : Election) (now : LocalDateTime) : Bool :=
  if e.status ≠ .PENDING then
    false
  else
    match e.votingDate with
    | none => false
    | some d => now.date = d ∧ e.votingStartTime ≤ now.time

/-- `Election.should_be_completed` (apps/voting/models.py lines 191–201).
Python's `local_now.date() > self.voting_date` raises `TypeError` when
`voting_date` is NULL, modelled with `Except`. -/
def Election.shouldBeCompleted (e : Election) (now : LocalDateTime) :
    Except String Bool :=
  if e.status ≠ .ACTIVE then
    .ok false
  else
    match e.votingDate with
    | none => .error "TypeError: date and NoneType are not comparable"
    | some d => .ok (d < now.date ∨ (now.date = d ∧ e.votingEndTime ≤ now.time))

/-- `Election.check_and_update_status` (apps/voting/models.py lines
158–178): returns the saved election and whether a transition fired. -/
def Election.checkAndUpdateStatus (e : Election) (now : LocalDateTime) :
    Except String (Election × Bool) :=
  if e.status = .PENDING ∧ e.autoOpen then
    if e.shouldBeActive now then
      .ok ({ e with status := .ACTIVE }, true)
    else
      .ok (e, false)
  else if e.status = .ACTIVE ∧ e.autoClose then
    match e.shouldBeCompleted now with
    | .error s => .error s
    | .ok true => .ok ({ e with status := .COMPLETED, allowVoting := false }, true)
    | .ok false => .ok (e, false)
  else if e.status = .COMPLETED ∧ e.autoPublish ∧ ¬ e.resultsPublished then
    .ok ({ e with resultsPublished := true }, true)
  else
    .ok (e, false)

/-- A midnight-crossing election used to exercise the window evaluator:
window `22:00 → 02:00` on day `10`, status ACTIVE, voting allowed, no
emergency pause, `auto_close` set. -/
def overnightElection : Election :=
  { id := 1
    electionType := .NATIONAL
    county := none
    votingDate := some 10
    votingStartTime := 22 * 60
    votingEndTime := 2 * 60
    status := .ACTIVE
    allowVoting := true
    resultsPublished := false
    emergencyPause := false
    totalVotesCast := 0
    autoOpen := true
    autoClose := true
    autoPublish := false
    createdAt := 0 }

/-- `User.KYC_STATUS` choices (apps/accounts/models.py). -/
inductive KycStatus where
  | PENDING | VERIFIED | REJECTED | FLAGGED | INCOMPLETE
deriving DecidableEq, Repr

/-- `User.USER_TYPES` choices (apps/accounts/models.py). -/
inductive UserType where
  | VOTER | ADMIN | SUPER_ADMIN
deriving DecidableEq, Repr

/-- The fields of `apps.accounts.models.User` read or written by the
vote-casting path.  `has_voted` is a single boolean column on the user
row (apps/accounts/models.py line 152), not a per-election fact;
`deviceFingerprint = none` models a NULL binding. -/
structure User where
  id : Nat
  tscNumber : String
  county : String
  userType : UserType
  kycStatus : KycStatus
  deviceFingerprint : Option String
  hasVoted : Bool
  votedAt : Option Nat
deriving DecidableEq, Repr

/-- `apps.voting.models.Position` (fields used by the ballot code). -/
structure Position where
  id : Nat
  electionId : Nat
  order : Nat
  isActive : Bool
deriving DecidableEq, Repr

/-- `apps.voting.models.Candidate` (fields used by the ballot code). -/
structure Candidate where
  id : Nat
  electionId : Nat
  positionId : Nat
  isActive : Bool
  voteCount : Int
deriving DecidableEq, Repr

/-- A persisted `apps.voting.models.Vote` row.  `timestampStr` holds the
Python `str(...)` rendering of the `auto_now_add` timestamp;
`voteHashInput` holds the exact string that `Vote.save` feeds to
`hashlib.sha256` (see the header note on hash abstraction). -/
structure VoteRow where
  id : Nat
  electionId : Nat
  voterId : Nat
  candidateIds : List Nat
  ipAddress : String
  deviceFingerprint : String
  voteToken : String
  timestampStr : String
  voteHashInput : String
deriving DecidableEq, Repr

/-- `VoteAuditLog.ACTION_TYPES` choices (apps/voting/models.py). -/
inductive AuditAction where
  | VOTE_CAST | VOTE_VERIFIED | VOTE_INVALIDATED | BALLOT_OPENED | BALLOT_CLOSED
deriving DecidableEq, Repr

/-- An `apps.voting.models.VoteAuditLog` row; `metaVoterId` and
`metaCandidates` model the `metadata` JSON written by `process_vote`. -/
structure AuditEntry where
  electionId : Nat
  voteId : Option Nat
  action : AuditAction
  ip : String
  userAgent : String
  metaVoterId : Nat
  metaCandidates : List Nat
deriving DecidableEq, Repr

/-- The tables touched by the vote-casting transaction. -/
structure DB where
  users : List User
  elections : List Election
  positions : List Position
  candidates : List Candidate
  votes : List VoteRow
  auditLogs : List AuditEntry
  nextVoteId : Nat
deriving DecidableEq, Repr

/-- Sort key implementing `Election.Meta.ordering =
['-voting_date', '-created_at']` on the SQLite backend the settings
configure: a NULL `voting_date` sorts after every concrete date under
`DESC`, which the `none ↦ 0 / some d ↦ d + 1` encoding reproduces. -/
def electionKey (e : Election) : Nat × Nat :=
  ((match e.votingDate with | none => 0 | some d => d + 1), e.createdAt)

/-- `a` is ordered at or before `b` by the model's default ordering
(most recent `voting_date` first, then most recent `created_at`). -/
def electionBefore (a b : Election) : Prop :=
  (electionKey b).1 < (electionKey a).1 ∨
    ((electionKey b).1 = (electionKey a).1 ∧ (electionKey b).2 ≤ (electionKey a).2)

instance : DecidableRel electionBefore := fun a b => by
  unfold electionBefore; infer_instance

instance : IsTotal Election electionBefore :=
  ⟨by intro a b; unfold electionBefore; omega⟩

instance : IsTrans Election electionBefore :=
  ⟨by intro a b c; unfold electionBefore; omega⟩

/-- The election table under the model's default `Meta.ordering`. -/
def orderedElections (es : List Election) : List Election :=
  es.insertionSort electionBefore

/-- `Election.objects.filter(status='ACTIVE').first()` as executed by
`VotingAreaView.process_vote` (apps/core/views.py line 225): the first
row whose status is ACTIVE under the default ordering.  Note the call
takes no election identifier. -/
def selectedElection (es : List Election) : Option Election :=
  (orderedElections es).find? (fun e => e.status = .ACTIVE)

/-- `Position.objects.filter(election=election, is_active=True)` — the
active positions of an election. -/
def activePositions (db : DB) (eid : Nat) : List Position :=
  db.positions.filter (fun p => p.electionId = eid ∧ p.isActive)

/-- Whether a `Vote` row already exists for the `(election, voter)` pair —
the storage-level `unique_together = ['election', 'voter']` constraint
(apps/voting/models.py line 381) rejects an insert exactly when this
holds. -/
def voteRowExists (db : DB) (eid uid : Nat) : Bool :=
  db.votes.any (fun v => v.electionId = eid ∧ v.voterId = uid)

/-- `Candidate.objects.get(id=candidate_id, election=election,
position_id=position_id, is_active=True)`: the lookup performed for each
ballot entry (apps/core/views.py lines 250–255). -/
def lookupCandidate (cands : List Candidate) (cid eid pid : Nat) : Option Candidate :=
  cands.find? (fun c => c.id = cid ∧ c.electionId = eid ∧ c.positionId = pid ∧ c.isActive)

/-- The read-modify-write increment `candidate.vote_count += 1;
candidate.save()` applied to the candidate table. -/
def incrementCandidate (cands : List Candidate) (cid : Nat) : List Candidate :=
  cands.map (fun c => if c.id = cid then { c with voteCount := c.voteCount + 1 } else c)

/-- The `for position_id, candidate_id in votes.items()` loop of
`process_vote`: resolve each entry, recording the chosen candidate ids
and incrementing each hit; `none` models the
`Candidate.DoesNotExist` branch that sets the transaction rollback
flag. -/
def attachCandidates (cands : List Candidate) (eid : Nat) :
    List (Nat × Nat) → Option (List Candidate × List Nat)
  | [] => some (cands, [])
  | (pid, cid) :: rest =>
    match lookupCandidate cands cid eid pid with
    | none => none
    | some c =>
      match attachCandidates (incrementCandidate cands cid) eid rest with
      | none => none
      | some (cs, ids) => some (cs, c.id :: ids)

/-- Exact string passed to `hashlib.sha256` by `Vote.save`
(apps/voting/models.py lines 386–399): `json.dumps(vote_data,
sort_keys=True)` over `{'voter', 'election', 'timestamp', 'token'}`, so
the keys appear in the order election, timestamp, token, voter, the
election id is a bare JSON number and the rest are JSON strings. -/
def voteHashData (voterTsc : String) (electionId : Nat)
    (timestampStr : String) (token : String) : String :=
  "\x7b\"election\": " ++ toString electionId ++
    ", \"timestamp\": \"" ++ timestampStr ++
    "\", \"token\": \"" ++ token ++
    "\", \"voter\": \"" ++ voterTsc ++ "\"\x7d"

/-- Request-scoped inputs of one vote-cast POST: client address and
user agent, the session's device fingerprint (`request.session.get(
'device_fingerprint', '')`), the wall clock, and the `uuid.uuid4()`
vote token drawn for this request. -/
structure RequestCtx where
  ip : String
  userAgent : String
  sessionFingerprint : Option String
  localNow : LocalDateTime
  now : Nat
  voteToken : String
deriving DecidableEq, Repr

/-- Outcome of `process_vote`: `success` is the JSON body
`{'success': True, 'message': ..., 'redirect': ...}`; `failure` is a
`JsonResponse({'error': msg}, status=s)`; `serverError` is an exception
that escapes the handler (no `except` clause catches it), which Django
reports as a generic 500 response. -/
inductive VoteOutcome where
  | success (message redirect : String)
  | failure (message : String) (status : Nat)
  | serverError (detail : String)
deriving DecidableEq, Repr

/-- The `Vote` row inserted by `process_vote` for the given ballot:
`Vote.objects.create(election=..., voter=..., ip_address=...,
device_fingerprint=request.session.get('device_fingerprint', ''),
vote_token=...)` followed by the `Vote.save` hash computation and the
`auto_now_add` timestamp assignment.  `Vote.save` computes the hash
*before* `super().save()` assigns the timestamp, so `str(self.timestamp)`
renders `"None"` in the hashed payload. -/
def newVoteRow (db : DB) (u : User) (ctx : RequestCtx) (eid : Nat)
    (ids : List Nat) : VoteRow :=
  { id := db.nextVoteId
    electionId := eid
    voterId := u.id
    candidateIds := ids
    ipAddress := ctx.ip
    deviceFingerprint := ctx.sessionFingerprint.getD ""
    voteToken := ctx.voteToken
    timestampStr := toString ctx.now
    voteHashInput := voteHashData u.tscNumber eid "None" ctx.voteToken }

/-- The `VoteAuditLog.objects.create(...)` entry appended by
`process_vote` (apps/core/views.py lines 278–290): action `VOTE_CAST`,
referencing the new vote, with the voter and chosen candidate ids in the
metadata. -/
def castAuditEntry (u : User) (ctx : RequestCtx) (eid voteId : Nat)
    (ids : List Nat) : AuditEntry :=
  { electionId := eid
    voteId := some voteId
    action := .VOTE_CAST
    ip := ctx.ip
    userAgent := ctx.userAgent
    metaVoterId := u.id
    metaCandidates := ids }

/-- The committed database after a successful `process_vote`: the new
vote row, the incremented candidate table, `user.has_voted = True` with
`voted_at`, `election.total_votes_cast += 1`, and exactly one appended
audit entry. -/
def castSuccessState (db : DB) (u : User) (ctx : RequestCtx) (eid : Nat)
    (cands' : List Candidate) (ids : List Nat) : DB :=
  { db with
    votes := db.votes ++ [newVoteRow db u ctx eid ids]
    candidates := cands'
    users := db.users.map (fun w =>
      if w.id = u.id then { u with hasVoted := true, votedAt := some ctx.now } else w)
    elections := db.elections.map (fun e =>
      if e.id = eid then { e with totalVotesCast := e.totalVotesCast + 1 } else e)
    auditLogs := db.auditLogs ++ [castAuditEntry u ctx eid db.nextVoteId ids]
    nextVoteId := db.nextVoteId + 1 }

/-- `VotingAreaView.process_vote` (apps/core/views.py lines 215–298),
translated step for step.  The function runs under
`@transaction.atomic`, so every non-success outcome leaves the database
unchanged (explicit `transaction.set_rollback(True)` for the invalid
candidate branch, exception propagation for `IntegrityError`); the
returned state on those paths is therefore the input state.  The ballot
`votes` is the posted `{position_id: candidate_id}` dict as an
association list. -/
def processVote (db : DB) (user : User) (ctx : RequestCtx)
    (votes : List (Nat × Nat)) : VoteOutcome × DB :=
  if user.hasVoted then
    (.failure "You have already voted" 403, db)
  else
    match selectedElection db.elections with
    | none => (.failure "No active election found" 403, db)
    | some election =>
      if ¬ election.isVotingOpen ctx.localNow then
        (.failure "Voting is closed" 403, db)
      else if votes.length ≠ (activePositions db election.id).length then
        (.failure "Please vote for all positions" 400, db)
      else if voteRowExists db election.id user.id then
        -- Vote.objects.create violates unique_together ('election', 'voter');
        -- process_vote has no handler for the IntegrityError
        (.serverError "IntegrityError: UNIQUE constraint failed", db)
      else
        match attachCandidates db.candidates election.id votes with
        | none => (.failure "Invalid candidate selection" 400, db)
        | some (cands', votedIds) =>
          (.success "Your vote has been recorded successfully!" "/results/",
            castSuccessState db user ctx election.id cands' votedIds)

/-- `Election.get_eligible_voters` (apps/voting/models.py lines
141–152): NATIONAL elections take every verified voter; COUNTY
elections additionally filter `county=self.county` (a NULL county
matches no row, since `User.county` is NOT NULL). -/
def getEligibleVoters (db : DB) (e : Election) : List User :=
  match e.electionType with
  | .NATIONAL =>
    db.users.filter (fun u => u.userType = .VOTER ∧ u.kycStatus = .VERIFIED)
  | .COUNTY =>
    db.users.filter (fun u => u.userType = .VOTER ∧ u.kycStatus = .VERIFIED ∧
      e.county = some u.county)

/-- An in-memory `Vote` instance as seen by `Vote.save`
(apps/voting/models.py lines 386–399): before the row is written,
`timestamp` (an `auto_now_add` field) is still `None` and `vote_hash` is
the empty string.  `voteHash` holds the hash *input* (see header). -/
structure UnsavedVote where
  voterTsc : String
  electionId : Nat
  voteToken : String
  timestamp : Option Nat
  voteHash : String
deriving DecidableEq, Repr

/-- Python `str(...)` applied to the possibly-`None` timestamp: `None`
renders as `"None"`; a set timestamp renders through `toString`, the
model's injective rendering of datetimes. -/
def pyStrOfTimestamp : Option Nat → String
  | none => "None"
  | some t => toString t

/-- The hash-computation step of `Vote.save`: when `vote_hash` is falsy
(empty), hash the JSON payload of the *current* field values — at which
point `self.timestamp` is still `None`. -/
def voteSaveHashStep (v : UnsavedVote) : UnsavedVote :=
  if v.voteHash = "" then
    { v with voteHash :=
        voteHashData v.voterTsc v.electionId (pyStrOfTimestamp v.timestamp) v.voteToken }
  else v

/-- `Vote.objects.create(...)` for a fresh vote: run the custom `save`
(hash step), then `super().save()` assigns the `auto_now_add`
timestamp. -/
def voteCreate (tsc : String) (eid : Nat) (token : String) (now : Nat) : UnsavedVote :=
  let saved := voteSaveHashStep
    { voterTsc := tsc, electionId := eid, voteToken := token,
      timestamp := none, voteHash := "" }
  { saved with timestamp := some now }

/-- The tamper check the claim describes: rebuild the hash input from the
*stored* fields of a persisted vote (voter identity, election id, stored
timestamp, vote token) for comparison with the stored hash. -/
def recomputedVoteHashInput (v : UnsavedVote) : String :=
  voteHashData v.voterTsc v.electionId (pyStrOfTimestamp v.timestamp) v.voteToken

/-- Modelled from the spec: §4.6 defines `vote_hash =
Hash(voter_identity || election_id || timestamp || vote_token ||
secret_material)`.  This is the hash *input* the specification
prescribes, including the secret material; the source's `Vote.save`
builds `voteHashData` instead, which has no secret component. -/
def specVoteHashInput (voterIdentity : String) (electionId : Nat)
    (timestampStr : String) (token : String) (secretMaterial : String) : String :=
  voterIdentity ++ "||" ++ toString electionId ++ "||" ++ timestampStr ++
    "||" ++ token ++ "||" ++ secretMaterial

/-- The device-binding comparison of `VoterLoginView.form_valid`
(apps/accounts/views.py lines 402–405): the login is rejected when
`user.device_fingerprint` is truthy (non-NULL, non-empty) and differs
from the session fingerprint (a NULL session value also differs). -/
def loginDeviceRejected (boundFp sessionFp : Option String) : Bool :=
  match boundFp with
  | none => false
  | some f =>
    if f = "" then false
    else
      match sessionFp with
      | none => true
      | some s => f ≠ s

/-! ### Concrete fixtures

A small concrete database used by the counterexamples and witnesses: one
NATIONAL election with an ordinary `08:00 → 17:00` window on day 10, two
active positions (ids 1, 2), one inactive position (id 3), and active
candidates for each. -/

/-- An ACTIVE NATIONAL election, window `08:00 → 17:00` on day 10. -/
def mainElection : Election :=
  { id := 1
    electionType := .NATIONAL
    county := none
    votingDate := some 10
    votingStartTime := 8 * 60
    votingEndTime := 17 * 60
    status := .ACTIVE
    allowVoting := true
    resultsPublished := false
    emergencyPause := false
    totalVotesCast := 0
    autoOpen := true
    autoClose := true
    autoPublish := false
    createdAt := 5 }

/-- A verified voter from Mombasa, bound to device fingerprint "abc",
who has not voted. -/
def voter : User :=
  { id := 100
    tscNumber := "12345"
    county := "Mombasa"
    userType := .VOTER
    kycStatus := .VERIFIED
    deviceFingerprint := some "abc"
    hasVoted := false
    votedAt := none }

/-- Position table: ids 1 and 2 active, id 3 inactive, all of election 1. -/
def fixturePositions : List Position :=
  [ { id := 1, electionId := 1, order := 1, isActive := true },
    { id := 2, electionId := 1, order := 2, isActive := true },
    { id := 3, electionId := 1, order := 3, isActive := false } ]

/-- Candidate table: candidates 11, 12 on position 1; 21 on position 2;
31 on the inactive position 3; all active, all of election 1. -/
def fixtureCandidates : List Candidate :=
  [ { id := 11, electionId := 1, positionId := 1, isActive := true, voteCount := 0 },
    { id := 12, electionId := 1, positionId := 1, isActive := true, voteCount := 0 },
    { id := 21, electionId := 1, positionId := 2, isActive := true, voteCount := 0 },
    { id := 31, electionId := 1, positionId := 3, isActive := true, voteCount := 0 } ]

/-- The base database: election 1, the fixture positions and candidates,
the single voter, no votes, no audit entries. -/
def baseDB : DB :=
  { users := [voter]
    elections := [mainElection]
    positions := fixturePositions
    candidates := fixtureCandidates
    votes := []
    auditLogs := []
    nextVoteId := 1000 }

/-- A request on day 10 at 10:00, from the voter's bound device. -/
def baseCtx : RequestCtx :=
  { ip := "10.0.0.1"
    userAgent := "UA"
    sessionFingerprint := some "abc"
    localNow := ⟨10, 10 * 60⟩
    now := 777
    voteToken := "tok-1" }

/-- A well-formed ballot: one active candidate per active position. -/
def goodBallot : List (Nat × Nat) := [(1, 11), (2, 21)]

/-- A malformed ballot of the right *size*: it covers active position 1
and the inactive position 3, and omits active position 2. -/
def inactivePositionBallot : List (Nat × Nat) := [(1, 11), (3, 31)]

/-- A pre-existing vote row for `(election 1, voter 100)`, as committed
by a concurrent request moments earlier. -/
def priorVoteRow : VoteRow :=
  { id := 999
    electionId := 1
    voterId := 100
    candidateIds := [11, 21]
    ipAddress := "10.0.0.2"
    deviceFingerprint := "abc"
    voteToken := "tok-0"
    timestampStr := "700"
    voteHashInput := voteHashData "12345" 1 "None" "tok-0" }

/-! ### Computation lemmas for `processVote`

One lemma per control-flow exit of `process_vote`, shared by the claim
theorems below. -/

theorem processVote_already_voted_eq (db : DB) (u : User) (ctx : RequestCtx)
    (votes : List (Nat × Nat)) (hv : u.hasVoted = true) :
    processVote db u ctx votes = (.failure "You have already voted" 403, db) := by
  simp [processVote, hv]

theorem processVote_window_closed_eq (db : DB) (u : User) (ctx : RequestCtx)
    (votes : List (Nat × Nat)) (e : Election)
    (hv : u.hasVoted = false)
    (hsel : selectedElection db.elections = some e)
    (hop : e.isVotingOpen ctx.localNow = false) :
    processVote db u ctx votes = (.failure "Voting is closed" 403, db) := by
  simp [processVote, hv, hsel, hop]

theorem processVote_wrong_count_eq (db : DB) (u : User) (ctx : RequestCtx)
    (votes : List (Nat × Nat)) (e : Election)
    (hv : u.hasVoted = false)
    (hsel : selectedElection db.elections = some e)
    (hop : e.isVotingOpen ctx.localNow = true)
    (hlen : votes.length ≠ (activePositions db e.id).length) :
    processVote db u ctx votes = (.failure "Please vote for all positions" 400, db) := by
  simp [processVote, hv, hsel, hop, hlen]

theorem processVote_integrity_error_eq (db : DB) (u : User) (ctx : RequestCtx)
    (votes : List (Nat × Nat)) (e : Election)
    (hv : u.hasVoted = false)
    (hsel : selectedElection db.elections = some e)
    (hop : e.isVotingOpen ctx.localNow = true)
    (hlen : votes.length = (activePositions db e.id).length)
    (hex : voteRowExists db e.id u.id = true) :
    processVote db u ctx votes =
      (.serverError "IntegrityError: UNIQUE constraint failed", db) := by
  simp [processVote, hv, hsel, hop, hlen, hex]

theorem processVote_invalid_candidate_eq (db : DB) (u : User) (ctx : RequestCtx)
    (votes : List (Nat × Nat)) (e : Election)
    (hv : u.hasVoted = false)
    (hsel : selectedElection db.elections = some e)
    (hop : e.isVotingOpen ctx.localNow = true)
    (hlen : votes.length = (activePositions db e.id).length)
    (hex : voteRowExists db e.id u.id = false)
    (hattach : attachCandidates db.candidates e.id votes = none) :
    processVote db u ctx votes = (.failure "Invalid candidate selection" 400, db) := by
  simp [processVote, hv, hsel, hop, hlen, hex, hattach]

theorem processVote_success_eq (db : DB) (u : User) (ctx : RequestCtx)
    (votes : List (Nat × Nat)) (e : Election)
    (cands' : List Candidate) (ids : List Nat)
    (hv : u.hasVoted = false)
    (hsel : selectedElection db.elections = some e)
    (hop : e.isVotingOpen ctx.localNow = true)
    (hlen : votes.length = (activePositions db e.id).length)
    (hex : voteRowExists db e.id u.id = false)
    (hattach : attachCandidates db.candidates e.id votes = some (cands', ids)) :
    processVote db u ctx votes =
      (.success "Your vote has been recorded successfully!" "/results/",
        castSuccessState db u ctx e.id cands' ids) := by
  simp [processVote, hv, hsel, hop, hlen, hex, hattach]

end Agora

namespace Agora

/-- C3: For the midnight-crossing window `start=22:00`, `end=02:00` on
voting date `D = 10` (ACTIVE, voting allowed, no pause), the claim states
`is_voting_open` is true at `D 23:00`, true at `(D+1) 01:00`, false at
`(D+1) 03:00` and false at `D 21:00`.  Evaluating the code: it is true at
`D 23:00`, false at `D 21:00` and false at `(D+1) 03:00` as claimed, but
**false** at `(D+1) 01:00` — the guard `current_date != voting_date`
returns early on the day after the voting date, so the crossing branch
can never keep the window open past midnight.  The same slip makes the
window **open** at `D 01:00`, before it ever started. -/
theorem is_voting_open_midnight_crossing_evaluation :
    Election.isVotingOpen overnightElection ⟨10, 23 * 60⟩ = true ∧
    Election.isVotingOpen overnightElection ⟨11, 1 * 60⟩ = false ∧
    Election.isVotingOpen overnightElection ⟨11, 3 * 60⟩ = false ∧
    Election.isVotingOpen overnightElection ⟨10, 21 * 60⟩ = false ∧
    Election.isVotingOpen overnightElection ⟨10, 1 * 60⟩ = true := by
  decide

/-- C8: the claim states an ACTIVE election with `auto_close` completes
exactly at the close instant, which for a midnight-crossing window
(`end_time ≤ start_time`) falls on the day *after* the voting date.
Evaluating the code at `D 23:00` — one hour into the open overnight
window, three hours before the claimed close instant `(D+1) 02:00` —
`check_and_update_status` already transitions the election to COMPLETED
and forces `allow_voting := false`, because `should_be_completed`
compares the end time on the voting date itself with no midnight
accounting.  The window evaluator still reports the window open at that
instant, so the code closes the election mid-window. -/
theorem check_and_update_status_closes_overnight_election_mid_window :
    Election.checkAndUpdateStatus overnightElection ⟨10, 23 * 60⟩ =
      .ok ({ overnightElection with status := .COMPLETED, allowVoting := false }, true) ∧
    Election.isVotingOpen overnightElection ⟨10, 23 * 60⟩ = true := by
  constructor
  · rfl
  · decide

end Agora

namespace Agora

/-! ### C1 — duplicate vote attempts -/

/-- The base database with a vote row already persisted for
`(election 1, voter 100)`, e.g. by a concurrent request; the voter's
global `has_voted` flag is not (yet) set. -/
def dbWithPriorVote : DB := { baseDB with votes := [priorVoteRow] }

/-- C1 counterexample: with a Vote row already persisted for the
`(election, voter)` pair and the voter's `has_voted` flag not set, a
subsequent `process_vote` attempt hits the storage-level uniqueness
constraint at `Vote.objects.create`, but the failure is an *unhandled*
`IntegrityError` — a generic server error — not the claimed
"already voted" response.  (No state changes, as the transaction is
rolled back.) -/
theorem uniqueness_violation_surfaces_as_server_error_cex :
    processVote dbWithPriorVote voter baseCtx goodBallot =
      (.serverError "IntegrityError: UNIQUE constraint failed", dbWithPriorVote) ∧
    voter.hasVoted = false ∧
    voteRowExists dbWithPriorVote mainElection.id voter.id = true := by
  refine ⟨?_, by decide, by decide⟩
  rfl

/-- C1 amended: when a Vote row already exists for the selected
election and the voter, any further `process_vote` attempt leaves the
database unchanged; if the voter's global `has_voted` flag is set the
application-level pre-check answers "already voted", while if the flag
is not set the attempt reaches the insert and the storage-level
uniqueness constraint rejects it as an *unhandled* `IntegrityError`
(generic server error), not as "already voted". -/
theorem existing_vote_row_rejected_without_state_change
    (db : DB) (u : User) (ctx : RequestCtx) (votes : List (Nat × Nat)) (e : Election)
    (hsel : selectedElection db.elections = some e)
    (hex : voteRowExists db e.id u.id = true) :
    (processVote db u ctx votes).2 = db ∧
    (u.hasVoted = true →
      (processVote db u ctx votes).1 = .failure "You have already voted" 403) ∧
    (u.hasVoted = false → e.isVotingOpen ctx.localNow = true →
      votes.length = (activePositions db e.id).length →
      (processVote db u ctx votes).1 =
        .serverError "IntegrityError: UNIQUE constraint failed") := by
  refine ⟨?_, ?_, ?_⟩
  · by_cases hv : u.hasVoted = true
    · rw [processVote_already_voted_eq db u ctx votes hv]
    · rw [Bool.not_eq_true] at hv
      by_cases hop : e.isVotingOpen ctx.localNow = true
      · by_cases hlen : votes.length = (activePositions db e.id).length
        · rw [processVote_integrity_error_eq db u ctx votes e hv hsel hop hlen hex]
        · rw [processVote_wrong_count_eq db u ctx votes e hv hsel hop hlen]
      · rw [Bool.not_eq_true] at hop
        rw [processVote_window_closed_eq db u ctx votes e hv hsel hop]
  · intro hv
    rw [processVote_already_voted_eq db u ctx votes hv]
  · intro hv hop hlen
    rw [processVote_integrity_error_eq db u ctx votes e hv hsel hop hlen hex]

/-- C1 witness: the amended theorem applied to the concrete database
with the pre-existing vote row. -/
theorem existing_vote_row_rejected_without_state_change_witness :
    (processVote dbWithPriorVote voter baseCtx goodBallot).2 = dbWithPriorVote ∧
    (processVote dbWithPriorVote voter baseCtx goodBallot).1 =
      .serverError "IntegrityError: UNIQUE constraint failed" := by
  have h := existing_vote_row_rejected_without_state_change dbWithPriorVote voter baseCtx
    goodBallot mainElection (by decide) (by decide)
  exact ⟨h.1, h.2.2 (by decide) (by decide) (by decide)⟩

/-! ### C7 — the already-voted check is a global per-user flag -/

/-- An older COMPLETED election (id 1) in which the voter already cast a
ballot. -/
def completedElection : Election :=
  { mainElection with
    id := 1
    status := .COMPLETED
    votingDate := some 5
    allowVoting := false }

/-- A second, currently ACTIVE election (id 2) on day 10. -/
def electionB : Election :=
  { mainElection with id := 2, createdAt := 6 }

/-- The single active position of election 2. -/
def positionsB : List Position :=
  [ { id := 4, electionId := 2, order := 1, isActive := true } ]

/-- The active candidate of election 2. -/
def candidatesB : List Candidate :=
  [ { id := 41, electionId := 2, positionId := 4, isActive := true, voteCount := 0 } ]

/-- The voter after casting in election 1: the global `has_voted` column
is set. -/
def votedVoter : User := { voter with hasVoted := true, votedAt := some 500 }

/-- Database in which the voter has voted in the old election 1 (vote
row + flag) and election 2 is ACTIVE with an open window; the voter has
no vote row in election 2. -/
def dbVotedElsewhere : DB :=
  { users := [votedVoter]
    elections := [completedElection, electionB]
    positions := positionsB
    candidates := candidatesB
    votes := [priorVoteRow]
    auditLogs := []
    nextVoteId := 1000 }

/-- C7 counterexample: a voter who cast a ballot in election 1 and is
otherwise eligible for the distinct ACTIVE election 2 (window open, no
vote row for `(election 2, voter)`, well-formed ballot) is nevertheless
rejected as "already voted": `process_vote` consults the single global
`User.has_voted` boolean, not a per-election fact. -/
theorem voted_elsewhere_blocked_in_new_election_cex :
    processVote dbVotedElsewhere votedVoter baseCtx [(4, 41)] =
      (.failure "You have already voted" 403, dbVotedElsewhere) ∧
    selectedElection dbVotedElsewhere.elections = some electionB ∧
    voteRowExists dbVotedElsewhere electionB.id votedVoter.id = false ∧
    electionB.isVotingOpen baseCtx.localNow = true ∧
    [(4, 41)].length = (activePositions dbVotedElsewhere electionB.id).length := by
  refine ⟨?_, by decide, by decide, by decide, by decide⟩
  rfl

/-- C7 amended: the "already voted" fact consumed by `process_vote` is
the single global `User.has_voted` flag: whenever it is set, the attempt
is rejected as "already voted" with no state change, for *every*
database — regardless of which election is active and regardless of
whether any Vote row exists for this voter in that election. -/
theorem already_voted_check_is_global_flag
    (db : DB) (u : User) (ctx : RequestCtx) (votes : List (Nat × Nat))
    (hv : u.hasVoted = true) :
    processVote db u ctx votes = (.failure "You have already voted" 403, db) :=
  processVote_already_voted_eq db u ctx votes hv

/-- C7 witness: the amended theorem applied to the voter who voted in
election 1 while election 2 is the active one. -/
theorem already_voted_check_is_global_flag_witness :
    processVote dbVotedElsewhere votedVoter baseCtx [(4, 41)] =
      (.failure "You have already voted" 403, dbVotedElsewhere) :=
  already_voted_check_is_global_flag dbVotedElsewhere votedVoter baseCtx [(4, 41)]
    (by decide)

end Agora

namespace Agora

/-! ### C2 — ballot validation -/

/-- C2 counterexample: the ballot `[(1, 11), (3, 31)]` covers active
position 1 and *inactive* position 3 while omitting active position 2,
yet `process_vote` accepts it and persists a vote: the code only
compares the *number* of entries against the number of active positions
and never checks that the entry keys are exactly the active positions
(a candidate of an inactive position passes the per-entry lookup, which
tests only `candidate.is_active`). -/
theorem inactive_position_ballot_accepted_cex :
    (processVote baseDB voter baseCtx inactivePositionBallot).1 =
      .success "Your vote has been recorded successfully!" "/results/" ∧
    (processVote baseDB voter baseCtx inactivePositionBallot).2.votes =
      [newVoteRow baseDB voter baseCtx 1 [11, 31]] ∧
    (activePositions baseDB 1).map (fun p => p.id) = [1, 2] ∧
    inactivePositionBallot.map Prod.fst = [1, 3] := by
  decide

/-- C2 amended: `process_vote` rejects a ballot wholesale when the
*number* of submitted entries differs from the number of active
positions, or when any `(position, candidate)` entry references a
candidate that does not belong to that position and election or is not
marked active; it does not verify that the entry keys are exactly the
active positions.  Either rejection leaves the database unchanged — no
Vote row, no `vote_count` increment, no audit entry (full rollback). -/
theorem ballot_validation_rejections_roll_back
    (db : DB) (u : User) (ctx : RequestCtx) (votes : List (Nat × Nat)) (e : Election)
    (hv : u.hasVoted = false)
    (hsel : selectedElection db.elections = some e)
    (hop : e.isVotingOpen ctx.localNow = true) :
    (votes.length ≠ (activePositions db e.id).length →
      processVote db u ctx votes = (.failure "Please vote for all positions" 400, db)) ∧
    (votes.length = (activePositions db e.id).length →
      voteRowExists db e.id u.id = false →
      attachCandidates db.candidates e.id votes = none →
      processVote db u ctx votes = (.failure "Invalid candidate selection" 400, db)) :=
  ⟨fun hlen => processVote_wrong_count_eq db u ctx votes e hv hsel hop hlen,
   fun hlen hex hat => processVote_invalid_candidate_eq db u ctx votes e hv hsel hop hlen hex hat⟩

/-- C2 witness: a one-entry ballot is rejected for its size; a
full-size ballot whose entries pair candidates with the wrong positions
is rejected at the candidate lookup; both leave the database unchanged. -/
theorem ballot_validation_rejections_roll_back_witness :
    processVote baseDB voter baseCtx [(1, 11)] =
      (.failure "Please vote for all positions" 400, baseDB) ∧
    processVote baseDB voter baseCtx [(1, 21), (2, 11)] =
      (.failure "Invalid candidate selection" 400, baseDB) := by
  constructor
  · exact (ballot_validation_rejections_roll_back baseDB voter baseCtx [(1, 11)]
      mainElection (by decide) (by decide) (by decide)).1 (by decide)
  · exact (ballot_validation_rejections_roll_back baseDB voter baseCtx [(1, 21), (2, 11)]
      mainElection (by decide) (by decide) (by decide)).2 (by decide) (by decide) (by decide)

/-! ### C5 — election scope is not checked when casting -/

/-- A COUNTY election for Nairobi, otherwise identical to the base
election. -/
def countyElection : Election :=
  { mainElection with electionType := .COUNTY, county := some "Nairobi" }

/-- The base database with the Nairobi COUNTY election as the active
election. -/
def countyDB : DB := { baseDB with elections := [countyElection] }

/-- C5 counterexample: the voter's county is "Mombasa" and the ACTIVE
election is COUNTY-scoped to "Nairobi", yet `process_vote` accepts the
ballot and persists the vote — there is no scope-membership check
anywhere on the casting path, so the claimed `Ineligible(ScopeMismatch)`
rejection does not exist. -/
theorem county_mismatch_vote_accepted_cex :
    voter.county = "Mombasa" ∧
    countyElection.electionType = .COUNTY ∧
    countyElection.county = some "Nairobi" ∧
    (processVote countyDB voter baseCtx goodBallot).1 =
      .success "Your vote has been recorded successfully!" "/results/" ∧
    (processVote countyDB voter baseCtx goodBallot).2.votes =
      [newVoteRow countyDB voter baseCtx 1 [11, 21]] := by
  decide

/-- C5 amended: `process_vote` performs no election-scope check: a
voter whose county differs from a COUNTY election's county still casts
successfully whenever the other gates pass.  The county restriction
exists only in `Election.get_eligible_voters` (used for eligible-voter
counts and notifications), which keeps exactly the verified voters, for
COUNTY elections those of the election's county. -/
theorem no_scope_check_in_process_vote
    (db : DB) (u : User) (ctx : RequestCtx) (votes : List (Nat × Nat)) (e : Election)
    (cands' : List Candidate) (ids : List Nat) (k : String)
    (hty : e.electionType = .COUNTY)
    (hk : e.county = some k)
    (hmismatch : u.county ≠ k)
    (hv : u.hasVoted = false)
    (hsel : selectedElection db.elections = some e)
    (hop : e.isVotingOpen ctx.localNow = true)
    (hlen : votes.length = (activePositions db e.id).length)
    (hex : voteRowExists db e.id u.id = false)
    (hattach : attachCandidates db.candidates e.id votes = some (cands', ids)) :
    e.county ≠ some u.county ∧
    processVote db u ctx votes =
      (.success "Your vote has been recorded successfully!" "/results/",
        castSuccessState db u ctx e.id cands' ids) ∧
    (∀ u' : User, u' ∈ getEligibleVoters db e ↔
      (u' ∈ db.users ∧ u'.userType = .VOTER ∧ u'.kycStatus = .VERIFIED ∧
        e.county = some u'.county)) := by
  refine ⟨?_, ?_, ?_⟩
  · rw [hk]
    intro hcon
    exact hmismatch (Option.some.inj hcon).symm
  · exact processVote_success_eq db u ctx votes e cands' ids hv hsel hop hlen hex hattach
  · intro u'
    simp [getEligibleVoters, hty, List.mem_filter, and_assoc]

/-- C5 witness: the Mombasa voter's ballot is accepted by the Nairobi
COUNTY election, and that voter is not among the election's eligible
voters. -/
theorem no_scope_check_in_process_vote_witness :
    countyElection.county ≠ some voter.county ∧
    processVote countyDB voter baseCtx goodBallot =
      (.success "Your vote has been recorded successfully!" "/results/",
        castSuccessState countyDB voter baseCtx 1
          (incrementCandidate (incrementCandidate fixtureCandidates 11) 21) [11, 21]) ∧
    voter ∉ getEligibleVoters countyDB countyElection := by
  have h := no_scope_check_in_process_vote countyDB voter baseCtx goodBallot
    countyElection
    (incrementCandidate (incrementCandidate fixtureCandidates 11) 21) [11, 21]
    "Nairobi" (by decide) (by decide) (by decide) (by decide) (by decide)
    (by decide) (by decide) (by decide) (by decide)
  exact ⟨h.1, h.2.1, by decide⟩

/-! ### C6 — device binding is enforced by middleware on every request

`apps.core.middleware.DeviceFingerprintMiddleware` is registered in
`settings.MIDDLEWARE` (agora_backend/settings.py line 78) and therefore
runs before *every* view, the vote-cast POST included: it recomputes the
device fingerprint from the request's attributes, overwrites
`request.session['device_fingerprint']` with it, and — when the
authenticated user is a voter bound to a non-empty fingerprint that
differs from the recomputed one — logs the user out and (off the logout
path) redirects to the login page, so the view never runs.
`MaintenanceModeMiddleware` (a 503 gate when maintenance mode is
switched on) is not modelled; the pipeline below assumes maintenance
mode off. -/

/-- Exact string hashed by
`DeviceFingerprintMiddleware.get_device_fingerprint`
(apps/core/middleware.py lines 48–62): `json.dumps(components,
sort_keys=True)` over `{'user_agent', 'accept_language',
'accept_encoding', 'ip'}`, so the keys appear in the order
accept_encoding, accept_language, ip, user_agent.  As with vote
hashing, the value stands for its SHA-256 image (see the header). -/
def deviceFingerprintData (userAgent acceptLanguage acceptEncoding ip : String) : String :=
  "\x7b\"accept_encoding\": \"" ++ acceptEncoding ++
    "\", \"accept_language\": \"" ++ acceptLanguage ++
    "\", \"ip\": \"" ++ ip ++
    "\", \"user_agent\": \"" ++ userAgent ++ "\"\x7d"

/-- One incoming vote-cast HTTP request as the middleware sees it: the
URL path, the attributes the fingerprint is derived from, and the
server-side draws (clock, vote token) the view will use. -/
structure CastRequest where
  path : String
  userAgent : String
  acceptLanguage : String
  acceptEncoding : String
  ip : String
  localNow : LocalDateTime
  now : Nat
  voteToken : String
deriving DecidableEq, Repr

/-- The fingerprint the middleware recomputes for a request. -/
def requestFingerprint (r : CastRequest) : String :=
  deviceFingerprintData r.userAgent r.acceptLanguage r.acceptEncoding r.ip

/-- What the fingerprint middleware hands on: either the request
continues to the view (with the overwritten session fingerprint and the
possibly logged-out user), or the user was logged out and redirected to
the login page with an error message. -/
inductive MiddlewareOutcome where
  | toView (sessionFp : String) (authUser : Option User)
  | redirectLogin (message : String)
deriving DecidableEq, Repr

/-- `DeviceFingerprintMiddleware.__call__` (apps/core/middleware.py
lines 23–46), translated branch for branch: the session fingerprint is
overwritten with the recomputed `fp`; an authenticated VOTER with a
truthy (non-NULL, non-empty) bound fingerprint that differs from `fp`
is logged out, then redirected to login unless the path is the logout
path (in which case the request continues unauthenticated). -/
def fingerprintMiddleware (fp path : String) (authUser : Option User) :
    MiddlewareOutcome :=
  match authUser with
  | none => .toView fp none
  | some u =>
    match u.deviceFingerprint with
    | none => .toView fp (some u)
    | some bound =>
      if u.userType = .VOTER ∧ bound ≠ "" ∧ fp ≠ bound then
        if path.startsWith "/accounts/logout/" then
          .toView fp none
        else
          .redirectLogin "You can only access your account from your registered device."
      else
        .toView fp (some u)

/-- Overall outcome of a vote-cast request through the middleware
stack: rejected by the fingerprint middleware (logout + redirect),
bounced by `@login_required` because no authenticated user reached the
view, or answered by `process_vote`. -/
inductive RequestOutcome where
  | middlewareRedirect (message : String)
  | loginRedirect
  | view (o : VoteOutcome)
deriving DecidableEq, Repr

/-- The full vote-cast request pipeline: `DeviceFingerprintMiddleware`
first, then (for a still-authenticated user) `process_vote` running
with the session fingerprint the middleware just wrote.  A middleware
rejection or a `@login_required` bounce changes no state. -/
def castVotePipeline (db : DB) (authUser : Option User) (r : CastRequest)
    (votes : List (Nat × Nat)) : RequestOutcome × DB :=
  match fingerprintMiddleware (requestFingerprint r) r.path authUser with
  | .redirectLogin msg => (.middlewareRedirect msg, db)
  | .toView fp userAfter =>
    match userAfter with
    | none => (.loginRedirect, db)
    | some u =>
      let result := processVote db u
        { ip := r.ip, userAgent := r.userAgent, sessionFingerprint := some fp,
          localNow := r.localNow, now := r.now, voteToken := r.voteToken } votes
      (.view result.1, result.2)

/-- The base ballot POST sent from an unregistered device: the
fingerprint recomputed from these attributes is a JSON payload string,
not the voter's bound `"abc"`. -/
def mismatchRequest : CastRequest :=
  { path := "/voting/"
    userAgent := "UA"
    acceptLanguage := "en"
    acceptEncoding := "gzip"
    ip := "10.0.0.1"
    localNow := ⟨10, 10 * 60⟩
    now := 777
    voteToken := "tok-1" }

/-- C6: whenever the requesting device's fingerprint — which the
middleware recomputes and installs as the session fingerprint on every
request — differs from the non-empty fingerprint bound to the voter,
the vote-cast request is rejected before the view runs: the voter is
logged out and redirected to login with a device-mismatch error, and no
vote (nor any other state change) is recorded. -/
theorem device_mismatch_request_rejected_before_view
    (db : DB) (u : User) (r : CastRequest) (votes : List (Nat × Nat)) (bf : String)
    (hbound : u.deviceFingerprint = some bf)
    (hbne : bf ≠ "")
    (hvoter : u.userType = .VOTER)
    (hne : requestFingerprint r ≠ bf)
    (hpath : r.path.startsWith "/accounts/logout/" = false) :
    castVotePipeline db (some u) r votes =
      (.middlewareRedirect
        "You can only access your account from your registered device.", db) := by
  simp [castVotePipeline, fingerprintMiddleware, hbound, hvoter, hbne, hne, hpath]

/-- C6 witness: the voter bound to `"abc"` sends the ballot from a
device whose recomputed fingerprint is not `"abc"`; the request is
rejected by the middleware and the database is unchanged. -/
theorem device_mismatch_request_rejected_before_view_witness :
    castVotePipeline baseDB (some voter) mismatchRequest goodBallot =
      (.middlewareRedirect
        "You can only access your account from your registered device.", baseDB) :=
  device_mismatch_request_rejected_before_view baseDB voter mismatchRequest goodBallot
    "abc" (by decide) (by decide) (by decide) (by decide) (by decide)

end Agora

namespace Agora

/-! ### C9 — vote hash contents and recomputation -/

/-- The hashed JSON payload determines the timestamp component: two
payloads that agree on voter, election and token but differ in the
timestamp string are distinct strings (so their SHA-256 images can only
coincide in a collision). -/
theorem voteHashData_timestamp_injective (voterTsc : String) (eid : Nat)
    (token : String) (s1 s2 : String)
    (h : voteHashData voterTsc eid s1 token = voteHashData voterTsc eid s2 token) :
    s1 = s2 := by
  unfold voteHashData at h
  have hd := congrArg String.data h
  simp only [String.data_append] at hd
  have hd1 := List.append_cancel_right hd
  have hd2 := List.append_cancel_right hd1
  have hd3 := List.append_cancel_right hd2
  have hd4 := List.append_cancel_right hd3
  have hd5 := List.append_cancel_right hd4
  have hd6 := List.append_cancel_left hd5
  cases s1
  cases s2
  exact congrArg String.mk (by simpa using hd6)

/-- C9 counterexample: for the concrete vote (voter `"12345"`,
election `7`, token `"tok-1"`, timestamp `1000`), the hash input that
`Vote.save` stored renders the timestamp as `"None"` — the hash was
computed before `auto_now_add` assigned the timestamp — so rebuilding
the payload from the stored fields yields a *different* string, and the
claimed recomputation check fails on this untampered record.  The
stored payload also visibly contains no secret material: it is exactly
the JSON object of the four public fields. -/
theorem vote_hash_recompute_mismatch_cex :
    (voteCreate "12345" 7 "tok-1" 1000).voteHash =
      voteHashData "12345" 7 "None" "tok-1" ∧
    recomputedVoteHashInput (voteCreate "12345" 7 "tok-1" 1000) =
      voteHashData "12345" 7 "1000" "tok-1" ∧
    recomputedVoteHashInput (voteCreate "12345" 7 "tok-1" 1000) ≠
      (voteCreate "12345" 7 "tok-1" 1000).voteHash := by
  refine ⟨rfl, rfl, ?_⟩
  decide

/-- C9 amended: every persisted Vote's hash is SHA-256 of the JSON
object `{election, timestamp, token, voter}` built by `Vote.save` — no
secret material enters the payload — and because the hash is computed
before the `auto_now_add` timestamp is assigned, the payload renders
the timestamp as `"None"`.  Consequently the stored hash does not even
depend on the vote's timestamp, and recomputing the payload from the
stored fields (whose timestamp no longer renders `"None"`) never
reproduces the stored hash input. -/
theorem vote_hash_payload_characterization
    (tsc : String) (eid : Nat) (token : String) (now : Nat)
    (hts : toString now ≠ "None") :
    (voteCreate tsc eid token now).voteHash = voteHashData tsc eid "None" token ∧
    (∀ other : Nat,
      (voteCreate tsc eid token other).voteHash = (voteCreate tsc eid token now).voteHash) ∧
    recomputedVoteHashInput (voteCreate tsc eid token now) ≠
      (voteCreate tsc eid token now).voteHash := by
  refine ⟨rfl, fun other => rfl, ?_⟩
  intro h
  exact hts (voteHashData_timestamp_injective tsc eid token (toString now) "None" h)

/-- C9 witness: the amended theorem at the concrete vote with
timestamp 1000. -/
theorem vote_hash_payload_characterization_witness :
    (voteCreate "12345" 7 "tok-1" 1000).voteHash =
      voteHashData "12345" 7 "None" "tok-1" ∧
    (voteCreate "12345" 7 "tok-1" 555).voteHash =
      (voteCreate "12345" 7 "tok-1" 1000).voteHash ∧
    recomputedVoteHashInput (voteCreate "12345" 7 "tok-1" 1000) ≠
      (voteCreate "12345" 7 "tok-1" 1000).voteHash := by
  have h := vote_hash_payload_characterization "12345" 7 "tok-1" 1000 (by decide)
  exact ⟨h.1, h.2.1 555, h.2.2⟩

end Agora

namespace Agora

/-! ### C10 — ballots are applied to the first ACTIVE election -/

theorem electionBefore_refl (a : Election) : electionBefore a a :=
  Or.inr ⟨rfl, le_refl _⟩

/-- In a list sorted by the default ordering, `find?` for the ACTIVE
status returns an election that is ordered at or before every ACTIVE
element of the list. -/
theorem sorted_find?_active_min {L : List Election} {e : Election}
    (hs : L.Sorted electionBefore)
    (hf : L.find? (fun x => x.status = .ACTIVE) = some e) :
    ∀ e' ∈ L, e'.status = .ACTIVE → electionBefore e e' := by
  induction L with
  | nil => simp at hf
  | cons x xs ih =>
    rw [List.sorted_cons] at hs
    by_cases hx : x.status = .ACTIVE
    · rw [List.find?_cons_of_pos _ (by simpa using hx)] at hf
      obtain rfl : x = e := by simpa using hf
      intro e' he' hact
      rcases List.mem_cons.mp he' with rfl | hmem
      · exact electionBefore_refl e'
      · exact hs.1 e' hmem
    · rw [List.find?_cons_of_neg _ (by simpa using hx)] at hf
      intro e' he' hact
      rcases List.mem_cons.mp he' with rfl | hmem
      · exact absurd hact hx
      · exact ih hs.2 hf e' hmem hact

/-- Characterization of `Election.objects.filter(status='ACTIVE').first()`:
the returned election is ACTIVE, belongs to the table, and precedes every
other ACTIVE election in the default ordering (most recent voting date,
then most recent creation). -/
theorem selectedElection_spec {es : List Election} {e : Election}
    (h : selectedElection es = some e) :
    e.status = .ACTIVE ∧ e ∈ es ∧
      (∀ e' ∈ es, e'.status = .ACTIVE → electionBefore e e') := by
  unfold selectedElection at h
  have hs : (orderedElections es).Sorted electionBefore := by
    unfold orderedElections
    exact List.sorted_insertionSort electionBefore es
  have hp := List.find?_some h
  have hmem := List.mem_of_find?_eq_some h
  unfold orderedElections at hmem
  refine ⟨of_decide_eq_true hp, (List.mem_insertionSort electionBefore).mp hmem, ?_⟩
  intro e' he' hact
  exact sorted_find?_active_min hs h e' ((List.mem_insertionSort electionBefore).mpr he') hact

/-- A successful `process_vote` appends exactly one vote row, and that
row references the selected (first ACTIVE) election — whatever the
ballot contained. -/
theorem processVote_success_votes (db : DB) (u : User) (ctx : RequestCtx)
    (votes : List (Nat × Nat)) (m r : String) (e : Election)
    (hsel : selectedElection db.elections = some e)
    (h : (processVote db u ctx votes).1 = .success m r) :
    ∃ ids, (processVote db u ctx votes).2.votes =
      db.votes ++ [newVoteRow db u ctx e.id ids] := by
  by_cases hv : u.hasVoted = true
  · rw [processVote_already_voted_eq db u ctx votes hv] at h
    simp at h
  · rw [Bool.not_eq_true] at hv
    by_cases hop : e.isVotingOpen ctx.localNow = true
    · by_cases hlen : votes.length = (activePositions db e.id).length
      · by_cases hex : voteRowExists db e.id u.id = true
        · rw [processVote_integrity_error_eq db u ctx votes e hv hsel hop hlen hex] at h
          simp at h
        · rw [Bool.not_eq_true] at hex
          cases hat : attachCandidates db.candidates e.id votes with
          | none =>
            rw [processVote_invalid_candidate_eq db u ctx votes e hv hsel hop hlen hex hat] at h
            simp at h
          | some pr =>
            obtain ⟨cands', ids⟩ := pr
            rw [processVote_success_eq db u ctx votes e cands' ids hv hsel hop hlen hex hat]
            exact ⟨ids, by simp [castSuccessState]⟩
      · rw [processVote_wrong_count_eq db u ctx votes e hv hsel hop hlen] at h
        simp at h
    · rw [Bool.not_eq_true] at hop
      rw [processVote_window_closed_eq db u ctx votes e hv hsel hop] at h
      simp at h

/-- C10: `process_vote` takes no election identifier; it resolves
`Election.objects.filter(status='ACTIVE').first()` itself.  The selected
election is ACTIVE and first under the default ordering (most recent
voting date, then most recent creation), and *every* successful ballot —
from any voter, with any selections — is recorded against that single
election. -/
theorem ballots_recorded_against_first_active_election
    (db : DB) (u1 u2 : User) (c1 c2 : RequestCtx)
    (v1 v2 : List (Nat × Nat)) (e : Election) (m1 r1 m2 r2 : String)
    (hsel : selectedElection db.elections = some e)
    (h1 : (processVote db u1 c1 v1).1 = .success m1 r1)
    (h2 : (processVote db u2 c2 v2).1 = .success m2 r2) :
    e.status = .ACTIVE ∧
    (∀ e' ∈ db.elections, e'.status = .ACTIVE → electionBefore e e') ∧
    (∃ ids1, (processVote db u1 c1 v1).2.votes =
      db.votes ++ [newVoteRow db u1 c1 e.id ids1]) ∧
    (∃ ids2, (processVote db u2 c2 v2).2.votes =
      db.votes ++ [newVoteRow db u2 c2 e.id ids2]) := by
  obtain ⟨hact, _, hmin⟩ := selectedElection_spec hsel
  exact ⟨hact, hmin,
    processVote_success_votes db u1 c1 v1 m1 r1 e hsel h1,
    processVote_success_votes db u2 c2 v2 m2 r2 e hsel h2⟩

/-- A second ACTIVE election with the *later* voting date (day 20); under
the default ordering it precedes `electionOld` below. -/
def electionNew : Election :=
  { mainElection with id := 4, votingDate := some 20, createdAt := 9 }

/-- A concurrently ACTIVE election with an earlier voting date (day 8). -/
def electionOld : Election :=
  { mainElection with id := 3, votingDate := some 8, createdAt := 2 }

/-- The single active position of election 4. -/
def positionsTwo : List Position :=
  [ { id := 7, electionId := 4, order := 1, isActive := true } ]

/-- Two active candidates of election 4. -/
def candidatesTwo : List Candidate :=
  [ { id := 71, electionId := 4, positionId := 7, isActive := true, voteCount := 0 },
    { id := 72, electionId := 4, positionId := 7, isActive := true, voteCount := 0 } ]

/-- A second verified voter. -/
def voterTwo : User := { voter with id := 101, tscNumber := "67890" }

/-- A database with *two* simultaneously ACTIVE elections; the election
table lists the older one first, so the selection genuinely depends on
the default ordering. -/
def dbTwoActive : DB :=
  { users := [voter, voterTwo]
    elections := [electionOld, electionNew]
    positions := positionsTwo
    candidates := candidatesTwo
    votes := []
    auditLogs := []
    nextVoteId := 1 }

/-- A request on day 20 (election 4's voting day) at 10:00. -/
def ctxDay20 : RequestCtx := { baseCtx with localNow := ⟨20, 10 * 60⟩ }

/-- C10 witness: with elections 3 and 4 both ACTIVE, two different
voters' ballots are both recorded against election 4 — the first ACTIVE
election under the default ordering. -/
theorem ballots_recorded_against_first_active_election_witness :
    electionOld.status = .ACTIVE ∧
    electionNew.status = .ACTIVE ∧
    (∀ e' ∈ dbTwoActive.elections, e'.status = .ACTIVE → electionBefore electionNew e') ∧
    (∃ ids1, (processVote dbTwoActive voter ctxDay20 [(7, 71)]).2.votes =
      dbTwoActive.votes ++ [newVoteRow dbTwoActive voter ctxDay20 electionNew.id ids1]) ∧
    (∃ ids2, (processVote dbTwoActive voterTwo ctxDay20 [(7, 72)]).2.votes =
      dbTwoActive.votes ++ [newVoteRow dbTwoActive voterTwo ctxDay20 electionNew.id ids2]) := by
  have h := ballots_recorded_against_first_active_election dbTwoActive voter voterTwo
    ctxDay20 ctxDay20 [(7, 71)] [(7, 72)] electionNew
    "Your vote has been recorded successfully!" "/results/"
    "Your vote has been recorded successfully!" "/results/"
    (by decide) (by decide) (by decide)
  exact ⟨by decide, h.1, h.2.1, h.2.2.1, h.2.2.2⟩

end Agora

namespace Agora

/-! ### C4 — effects of a successful cast -/

/-- Membership in the incremented candidate table comes from an original
row agreeing on every field the ballot lookup inspects. -/
theorem mem_incrementCandidate {cands : List Candidate} {x : Nat} {c' : Candidate}
    (h : c' ∈ incrementCandidate cands x) :
    ∃ c ∈ cands, c'.id = c.id ∧ c'.electionId = c.electionId ∧
      c'.positionId = c.positionId ∧ c'.isActive = c.isActive := by
  unfold incrementCandidate at h
  obtain ⟨c, hc, rfl⟩ := List.mem_map.mp h
  refine ⟨c, hc, ?_⟩
  by_cases hx : c.id = x <;> simp [hx]

/-- The increment leaves the id column unchanged. -/
theorem incrementCandidate_map_id (cands : List Candidate) (x : Nat) :
    (incrementCandidate cands x).map (fun c => c.id) = cands.map (fun c => c.id) := by
  unfold incrementCandidate
  rw [List.map_map]
  congr 1
  funext c
  by_cases hx : c.id = x <;> simp [hx]

/-- What a successful per-entry candidate lookup guarantees: the row is
in the table, matches the requested id, election and position, and is
active. -/
theorem lookupCandidate_spec {cands : List Candidate} {cid eid pid : Nat}
    {c : Candidate} (h : lookupCandidate cands cid eid pid = some c) :
    c ∈ cands ∧ c.id = cid ∧ c.electionId = eid ∧ c.positionId = pid ∧
      c.isActive = true := by
  unfold lookupCandidate at h
  have hp := List.find?_some h
  have hm := List.mem_of_find?_eq_some h
  simp only [decide_eq_true_eq] at hp
  exact ⟨hm, hp.1, hp.2.1, hp.2.2.1, hp.2.2.2⟩

/-- If the ballot loop succeeds, every entry resolved — at lookup time —
to a row of the *original* candidate table matching its position and
candidate ids (increments change only `vote_count`). -/
theorem attachCandidates_entry_resolves {eid : Nat} (votes : List (Nat × Nat)) :
    ∀ (cands : List Candidate) (out : List Candidate × List Nat),
      attachCandidates cands eid votes = some out →
      ∀ pid cid, (pid, cid) ∈ votes →
        ∃ c ∈ cands, c.id = cid ∧ c.electionId = eid ∧ c.positionId = pid ∧
          c.isActive = true := by
  induction votes with
  | nil =>
    intro cands out h pid cid hmem
    simp at hmem
  | cons head rest ih =>
    obtain ⟨p0, c0⟩ := head
    intro cands out h pid cid hmem
    unfold attachCandidates at h
    cases hl : lookupCandidate cands c0 eid p0 with
    | none =>
      rw [hl] at h
      exact Option.noConfusion h
    | some c =>
      simp only [hl] at h
      cases hr : attachCandidates (incrementCandidate cands c0) eid rest with
      | none =>
        rw [hr] at h
        exact Option.noConfusion h
      | some pr =>
        rcases List.mem_cons.mp hmem with heq | hmemr
        · obtain ⟨rfl, rfl⟩ : pid = p0 ∧ cid = c0 := by simpa using heq
          obtain ⟨hcmem, hcid, hce, hcp, hcact⟩ := lookupCandidate_spec hl
          exact ⟨c, hcmem, hcid, hce, hcp, hcact⟩
        · obtain ⟨c', hc'mem, hcid, hce, hcp, hcact⟩ :=
            ih (incrementCandidate cands c0) pr hr pid cid hmemr
          obtain ⟨corig, hcorig, hid, hel, hpos, hact⟩ := mem_incrementCandidate hc'mem
          exact ⟨corig, hcorig, by rw [← hid]; exact hcid, by rw [← hel]; exact hce,
            by rw [← hpos]; exact hcp, by rw [← hact]; exact hcact⟩

/-- Under distinct candidate-row ids and distinct ballot positions, a
successful ballot loop involves pairwise distinct candidate ids: two
entries can only name the same candidate if they name the same
position. -/
theorem attachCandidates_snd_nodup {eid : Nat} (votes : List (Nat × Nat)) :
    ∀ (cands : List Candidate) (out : List Candidate × List Nat),
      (cands.map (fun c => c.id)).Nodup →
      (votes.map Prod.fst).Nodup →
      attachCandidates cands eid votes = some out →
      (votes.map Prod.snd).Nodup := by
  induction votes with
  | nil => intro _ _ _ _ _; simp
  | cons head rest ih =>
    obtain ⟨p0, c0⟩ := head
    intro cands out hid hkeys h
    unfold attachCandidates at h
    cases hl : lookupCandidate cands c0 eid p0 with
    | none =>
      rw [hl] at h
      exact Option.noConfusion h
    | some c =>
      simp only [hl] at h
      cases hr : attachCandidates (incrementCandidate cands c0) eid rest with
      | none =>
        rw [hr] at h
        exact Option.noConfusion h
      | some pr =>
        simp only [List.map_cons, List.nodup_cons] at hkeys ⊢
        obtain ⟨hp0, hkeysr⟩ := hkeys
        constructor
        · intro hcon
          obtain ⟨x, hx, hxsnd⟩ := List.mem_map.mp hcon
          obtain ⟨p', c'0⟩ := x
          obtain ⟨ca, hca, haid, hael, hapos, haact⟩ :=
            attachCandidates_entry_resolves rest (incrementCandidate cands c0) pr hr p' c'0 hx
          obtain ⟨corig, hcorig, hoid, hoel, hopos, hoact⟩ := mem_incrementCandidate hca
          obtain ⟨hcmem, hcid, hce, hcp, hcact⟩ := lookupCandidate_spec hl
          have hc'c : c'0 = c0 := hxsnd
          have hsame : corig = c := by
            apply List.inj_on_of_nodup_map hid hcorig hcmem
            show corig.id = c.id
            rw [← hoid, haid, hc'c, hcid]
          have hp' : p' = p0 := by
            rw [← hapos, hopos, hsame, hcp]
          exact hp0 (List.mem_map.mpr ⟨(p', c'0), hx, hp'⟩)
        · exact ih (incrementCandidate cands c0) pr
            (by rw [incrementCandidate_map_id]; exact hid) hkeysr hr

/-- Full characterization of a successful ballot loop with pairwise
distinct candidate ids: the recorded ids are exactly the ballot's
candidate ids in order, and the resulting candidate table is the
original with `vote_count` incremented by exactly one on each selected
candidate and untouched elsewhere. -/
theorem attachCandidates_result {eid : Nat} (votes : List (Nat × Nat)) :
    ∀ (cands cands' : List Candidate) (ids : List Nat),
      (votes.map Prod.snd).Nodup →
      attachCandidates cands eid votes = some (cands', ids) →
      ids = votes.map Prod.snd ∧
      cands' = cands.map (fun c =>
        if c.id ∈ votes.map Prod.snd then
          { c with voteCount := c.voteCount + 1 }
        else c) := by
  induction votes with
  | nil =>
    intro cands cands' ids _ h
    unfold attachCandidates at h
    obtain ⟨rfl, rfl⟩ : cands = cands' ∧ [] = ids := by simpa using h
    simp
  | cons head rest ih =>
    obtain ⟨p0, c0⟩ := head
    intro cands cands' ids hsnd h
    unfold attachCandidates at h
    cases hl : lookupCandidate cands c0 eid p0 with
    | none =>
      rw [hl] at h
      exact Option.noConfusion h
    | some c =>
      simp only [hl] at h
      cases hr : attachCandidates (incrementCandidate cands c0) eid rest with
      | none =>
        rw [hr] at h
        exact Option.noConfusion h
      | some pr =>
        obtain ⟨cs, ids'⟩ := pr
        simp only [hr, Option.some.injEq, Prod.mk.injEq] at h
        obtain ⟨rfl, rfl⟩ : cs = cands' ∧ c.id :: ids' = ids := h
        simp only [List.map_cons, List.nodup_cons] at hsnd
        obtain ⟨hnotin, hsndr⟩ := hsnd
        obtain ⟨hids, hcs⟩ := ih (incrementCandidate cands c0) cs ids' hsndr hr
        have hcid := (lookupCandidate_spec hl).2.1
        constructor
        · rw [hids, hcid]
          simp
        · rw [hcs]
          unfold incrementCandidate
          rw [List.map_map]
          congr 1
          funext x
          simp only [Function.comp, List.map_cons]
          by_cases hx : x.id = c0
          · rw [if_pos hx]
            have h1 : ({ x with voteCount := x.voteCount + 1 } : Candidate).id = x.id := rfl
            rw [if_neg (by rw [h1, hx]; exact hnotin)]
            rw [if_pos (by rw [hx]; exact List.mem_cons_self c0 (List.map Prod.snd rest))]
          · rw [if_neg hx]
            have h2 : (x.id ∈ c0 :: List.map Prod.snd rest) ↔ x.id ∈ List.map Prod.snd rest := by
              simp [List.mem_cons, hx]
            by_cases hmem : x.id ∈ List.map Prod.snd rest
            · rw [if_pos hmem, if_pos (h2.mpr hmem)]
            · rw [if_neg hmem, if_neg (fun hcon => hmem (h2.mp hcon))]

end Agora

namespace Agora

/-- A second request context differing from `baseCtx` only in the drawn
vote token and the clock. -/
def tokenCtxB : RequestCtx := { baseCtx with voteToken := "tok-2", now := 888 }

/-- C4 counterexample: on the happy path `process_vote` answers only
`{'success': True, 'message': ..., 'redirect': '/results/'}` — the
response is byte-for-byte identical for two requests whose vote tokens
and timestamps differ, so it cannot contain the vote token or the
timestamp; no receipt is returned to the voter (the token reaches only
the server log). -/
theorem success_response_contains_no_receipt_cex :
    (processVote baseDB voter baseCtx goodBallot).1 =
      .success "Your vote has been recorded successfully!" "/results/" ∧
    baseCtx.voteToken ≠ tokenCtxB.voteToken ∧
    baseCtx.now ≠ tokenCtxB.now ∧
    (processVote baseDB voter baseCtx goodBallot).1 =
      (processVote baseDB voter tokenCtxB goodBallot).1 := by
  decide

/-- C4 amended: for an eligible voter (not yet voted, ACTIVE election
with open window) whose ballot resolves one active candidate per entry,
`process_vote` succeeds and afterwards: the voter's `has_voted` is true
with `voted_at` set, each selected candidate's `vote_count` has
increased by exactly 1 (and no other candidate's changed), the
election's `total_votes_cast` has increased by 1, exactly one
`VOTE_CAST` audit entry referencing the new Vote row has been appended —
but the response is only a success message with a redirect, not a
receipt carrying the vote token and timestamp. -/
theorem happy_path_effects
    (db : DB) (u : User) (ctx : RequestCtx) (votes : List (Nat × Nat)) (e : Election)
    (cands' : List Candidate) (ids : List Nat)
    (hv : u.hasVoted = false)
    (hsel : selectedElection db.elections = some e)
    (hop : e.isVotingOpen ctx.localNow = true)
    (hlen : votes.length = (activePositions db e.id).length)
    (hex : voteRowExists db e.id u.id = false)
    (hattach : attachCandidates db.candidates e.id votes = some (cands', ids))
    (hid : (db.candidates.map (fun c => c.id)).Nodup)
    (hkeys : (votes.map Prod.fst).Nodup) :
    (processVote db u ctx votes).1 =
      .success "Your vote has been recorded successfully!" "/results/" ∧
    (processVote db u ctx votes).2.votes =
      db.votes ++ [newVoteRow db u ctx e.id ids] ∧
    (∀ w ∈ (processVote db u ctx votes).2.users, w.id = u.id →
      w.hasVoted = true ∧ w.votedAt = some ctx.now) ∧
    (processVote db u ctx votes).2.candidates =
      db.candidates.map (fun c =>
        if c.id ∈ votes.map Prod.snd then
          { c with voteCount := c.voteCount + 1 }
        else c) ∧
    (∀ el ∈ db.elections, el.id = e.id →
      { el with totalVotesCast := el.totalVotesCast + 1 } ∈
        (processVote db u ctx votes).2.elections) ∧
    (processVote db u ctx votes).2.auditLogs =
      db.auditLogs ++ [castAuditEntry u ctx e.id db.nextVoteId ids] ∧
    (castAuditEntry u ctx e.id db.nextVoteId ids).action = .VOTE_CAST ∧
    (castAuditEntry u ctx e.id db.nextVoteId ids).voteId =
      some (newVoteRow db u ctx e.id ids).id := by
  have hsndnodup :=
    attachCandidates_snd_nodup votes db.candidates (cands', ids) hid hkeys hattach
  obtain ⟨hids, hcands⟩ :=
    attachCandidates_result votes db.candidates cands' ids hsndnodup hattach
  rw [processVote_success_eq db u ctx votes e cands' ids hv hsel hop hlen hex hattach]
  refine ⟨rfl, rfl, ?_, ?_, ?_, rfl, rfl, rfl⟩
  · intro w hw hwid
    simp only [castSuccessState] at hw
    obtain ⟨w0, hw0, hweq⟩ := List.mem_map.mp hw
    by_cases h0 : w0.id = u.id
    · rw [if_pos h0] at hweq
      rw [← hweq]
      exact ⟨rfl, rfl⟩
    · rw [if_neg h0] at hweq
      exact absurd (hweq ▸ hwid) h0
  · simp only [castSuccessState]
    exact hcands
  · intro el hel heid
    simp only [castSuccessState]
    exact List.mem_map.mpr ⟨el, hel, by rw [if_pos heid]⟩

/-- C4 witness: the amended theorem at the concrete base fixture with
the well-formed two-position ballot. -/
theorem happy_path_effects_witness :
    (processVote baseDB voter baseCtx goodBallot).1 =
      .success "Your vote has been recorded successfully!" "/results/" ∧
    (processVote baseDB voter baseCtx goodBallot).2.votes =
      baseDB.votes ++ [newVoteRow baseDB voter baseCtx mainElection.id [11, 21]] ∧
    (∀ w ∈ (processVote baseDB voter baseCtx goodBallot).2.users, w.id = voter.id →
      w.hasVoted = true ∧ w.votedAt = some baseCtx.now) ∧
    (processVote baseDB voter baseCtx goodBallot).2.candidates =
      baseDB.candidates.map (fun c =>
        if c.id ∈ goodBallot.map Prod.snd then
          { c with voteCount := c.voteCount + 1 }
        else c) ∧
    (∀ el ∈ baseDB.elections, el.id = mainElection.id →
      { el with totalVotesCast := el.totalVotesCast + 1 } ∈
        (processVote baseDB voter baseCtx goodBallot).2.elections) ∧
    (processVote baseDB voter baseCtx goodBallot).2.auditLogs =
      baseDB.auditLogs ++
        [castAuditEntry voter baseCtx mainElection.id baseDB.nextVoteId [11, 21]] ∧
    (castAuditEntry voter baseCtx mainElection.id baseDB.nextVoteId [11, 21]).action =
      .VOTE_CAST ∧
    (castAuditEntry voter baseCtx mainElection.id baseDB.nextVoteId [11, 21]).voteId =
      some (newVoteRow baseDB voter baseCtx mainElection.id [11, 21]).id :=
  happy_path_effects baseDB voter baseCtx goodBallot mainElection
    (incrementCandidate (incrementCandidate fixtureCandidates 11) 21) [11, 21]
    (by decide) (by decide) (by decide) (by decide) (by decide) (by decide)
    (by decide) (by decide)

end Agora
